import Mathlib

/-! Verification of the flowmode activity tracker (Rust sources under `src/`).

Modelling conventions of the shallow embedding:
* Rust `String` values are modelled as `List Char`; Rust's `str::to_lowercase`
  is modelled as a character-wise `Char.toLower`, and `str::contains` as list
  infix containment.
* Timestamps (`DateTime<Local>` stored as RFC-3339 text and compared by SQLite
  as text) are modelled as integer seconds on a single local timeline; with a
  fixed UTC offset the lexicographic order on the stored text agrees with the
  numeric order on seconds, and SQLite's `julianday` delta times 86400 is the
  exact integer-second difference.
* The SQLite `activity` table is a list of rows; `UPDATE ... WHERE` is a map
  over the list, `DELETE ... WHERE` a filter, `INSERT` an append.
-/

namespace FlowMode

/-- Rust `to_lowercase`, modelled character-wise. -/
def lowerStr (s : List Char) : List Char := s.map Char.toLower

/-- Rust `str::contains` (substring test), as decidable list-infix. -/
def containsSub (hay needle : List Char) : Bool := decide (needle <:+: hay)

/-! ### Pattern matcher (src/config.rs) -/

/-- Rust enum `MatchType` from src/config.rs. -/
inductive MatchType where
  | windowClass
  | windowTitle
  | process
deriving DecidableEq, Repr

/-- Rust struct `TrackedApp` from src/config.rs. -/
structure TrackedApp where
  name : List Char
  match_type : MatchType
  pattern : List Char
  category : List Char
deriving DecidableEq, Repr

/-- Rust struct `Config` from src/config.rs (paths omitted; they never reach the core logic). -/
structure Config where
  idle_timeout_secs : Nat
  poll_interval_secs : Nat
  apps : List TrackedApp
deriving Repr

/-- The per-rule test inside `Config::match_window`: the lowercased pattern is
searched in the lowercased class for `WindowClass` and `Process` rules and in
the lowercased title for `WindowTitle` rules. -/
def ruleMatches (class_lower title_lower : List Char) (app : TrackedApp) : Bool :=
  let pattern_lower := lowerStr app.pattern
  match app.match_type with
  | MatchType.windowClass => containsSub class_lower pattern_lower
  | MatchType.windowTitle => containsSub title_lower pattern_lower
  | MatchType.process => containsSub class_lower pattern_lower

/-- Function `Config::match_window` from src/config.rs: first rule in declaration
order whose pattern matches. -/
def Config.match_window (cfg : Config) (window_class window_title : List Char) :
    Option TrackedApp :=
  cfg.apps.find? (ruleMatches (lowerStr window_class) (lowerStr window_title))

/-- The snapshot field a rule is resolved against, per the spec: `windowClass`
for WindowClass and Process rules, `windowTitle` for WindowTitle rules. -/
def applicableField (window_class window_title : List Char) (app : TrackedApp) :
    List Char :=
  match app.match_type with
  | MatchType.windowTitle => window_title
  | _ => window_class

/-- Spec-side matching predicate: the rule's pattern is a case-insensitive
substring of the applicable snapshot field. -/
def specMatches (window_class window_title : List Char) (app : TrackedApp) : Prop :=
  lowerStr app.pattern <:+: lowerStr (applicableField window_class window_title app)

instance (wc wt : List Char) (app : TrackedApp) : Decidable (specMatches wc wt app) := by
  unfold specMatches; infer_instance

/-! ### Title truncation (src/title_parser.rs) -/

/-- Function `truncate` from src/title_parser.rs: keep the string if it has at most
`max_len` chars, else take `max_len - 1` chars (saturating) and append `…`. -/
def truncate (s : List Char) (max_len : Nat) : List Char :=
  if s.length ≤ max_len then s
  else s.take (max_len - 1) ++ ['…']

/-! ### Persistent store (src/storage.rs)

One row of the `activity` table. `started_at` is in integer seconds;
`ended_at = none` models SQL NULL; `duration_secs`, `active_secs` and
`passive_secs` are the INTEGER columns (DEFAULT 0 on insert). -/

/-- Row of the SQLite `activity` table created in `Storage::open`. -/
structure ActivityRow where
  id : Nat
  app_name : List Char
  category : List Char
  window_title : List Char
  started_at : Int
  ended_at : Option Int
  duration_secs : Int
  active_secs : Int
  passive_secs : Int
deriving DecidableEq, Repr

/-- The `activity` table, in rowid order. -/
abbrev Store := List ActivityRow

namespace Storage

/-- Function `Storage::start_activity`: INSERT of an open row stamped `now`;
`rowid` models the SQLite-assigned rowid returned by `last_insert_rowid`.
The omitted columns take their DEFAULT 0 / NULL values. -/
def start_activity (db : Store) (rowid : Nat)
    (app_name category window_title : List Char) (now : Int) : Store :=
  db ++ [{ id := rowid, app_name := app_name, category := category,
           window_title := window_title, started_at := now, ended_at := none,
           duration_secs := 0, active_secs := 0, passive_secs := 0 }]

/-- Effect of the UPDATE in `Storage::end_activity` on one row: set
`ended_at = now` and `duration_secs` to the integer-second delta
`CAST((julianday(now) - julianday(started_at)) * 86400 AS INTEGER)`, which on
the integer-second timeline is exactly `now - started_at` (CAST truncation is
the identity on an exact integer). -/
def endRow (now : Int) (r : ActivityRow) : ActivityRow :=
  { r with ended_at := some now, duration_secs := now - r.started_at }

/-- Function `Storage::end_activity`: UPDATE ... WHERE id = rid. -/
def end_activity (db : Store) (rid : Nat) (now : Int) : Store :=
  db.map (fun r => if r.id = rid then endRow now r else r)

/-- Function `Storage::update_activity_time`: adds `active_delta` to
`active_secs`, `passive_delta` to `passive_secs`, and their sum to
`duration_secs`, on the rows WHERE id = rid. -/
def update_activity_time (db : Store) (rid : Nat)
    (active_delta passive_delta : Int) : Store :=
  db.map (fun r =>
    if r.id = rid then
      { r with active_secs := r.active_secs + active_delta,
               passive_secs := r.passive_secs + passive_delta,
               duration_secs := r.duration_secs + active_delta + passive_delta }
    else r)

/-- Function `Storage::close_open_sessions`: UPDATE ... WHERE ended_at IS NULL,
setting `ended_at = now` and recomputing `duration_secs` as in `end_activity`. -/
def close_open_sessions (db : Store) (now : Int) : Store :=
  db.map (fun r => if r.ended_at.isNone then endRow now r else r)

/-- Rows with `ended_at IS NULL` (in table order). -/
def openRows (db : Store) : Store := db.filter (fun r => r.ended_at.isNone)

/-- Function `Storage::get_active_session`: the open row with the greatest
`started_at` (ORDER BY started_at DESC LIMIT 1; SQLite breaks ties
arbitrarily, here in favour of the earlier row). -/
def get_active_session (db : Store) : Option ActivityRow :=
  (openRows db).foldl
    (fun acc r =>
      match acc with
      | none => some r
      | some b => some (if b.started_at < r.started_at then r else b))
    none

/-- Membership of a timestamp in the local-day window
`[midnight, midnight + 24h)` used by the `started_at >= start AND
started_at < end` range filters. -/
def inDayWindow (midnight t : Int) : Prop := midnight ≤ t ∧ t < midnight + 86400

instance (midnight t : Int) : Decidable (inDayWindow midnight t) := by
  unfold inDayWindow; infer_instance

/-- Function `Storage::reset_today`: DELETE FROM activity WHERE started_at is in
today's local-day window (`midnight` is today's local midnight in seconds). -/
def reset_today (db : Store) (midnight : Int) : Store :=
  db.filter (fun r => !(decide (inDayWindow midnight r.started_at)))

/-- Rows of today's local-day window (the shared `started_at` range filter of
the aggregation queries). -/
def todayRows (db : Store) (midnight : Int) : Store :=
  db.filter (fun r => decide (inDayWindow midnight r.started_at))

/-- Grouping keys of `GROUP BY app_name, window_title`, in first-appearance
order. -/
def detailedKeys (rows : Store) : List (List Char × List Char) :=
  (rows.map (fun r => (r.app_name, r.window_title))).dedup

/-- Value of `SUM(duration_secs)` for one `(app_name, window_title)` group. -/
def groupTotal (rows : Store) (key : List Char × List Char) : Int :=
  ((rows.filter (fun r => decide (r.app_name = key.1 ∧ r.window_title = key.2))).map
    ActivityRow.duration_secs).sum

/-- Function `Storage::get_today_detailed`: per-(app, title) totals over today's
rows, kept only when `HAVING total >= 5`. The SQL result's `category` column
(an arbitrary group representative) and its ORDER BY are not modelled; the
claims under verification concern neither. -/
def get_today_detailed (db : Store) (midnight : Int) :
    List ((List Char × List Char) × Int) :=
  let rows := todayRows db midnight
  ((detailedKeys rows).map (fun k => (k, groupTotal rows k))).filter
    (fun g => decide (5 ≤ g.2))

/-- Start of the week-summary range in `Storage::get_week_summary`:
midnight of `today - Duration::days(7)`, with `todayMid` today's midnight. -/
def weekStart (todayMid : Int) : Int := todayMid - 7 * 86400

/-- End of the week-summary range: today at 23:59:59 (inclusive bound
`started_at <= end`). -/
def weekEnd (todayMid : Int) : Int := todayMid + 86399

/-- Membership in the week-summary window `[weekStart, weekEnd]`. -/
def inWeekWindow (todayMid t : Int) : Prop :=
  weekStart todayMid ≤ t ∧ t ≤ weekEnd todayMid

instance (todayMid t : Int) : Decidable (inWeekWindow todayMid t) := by
  unfold inWeekWindow; infer_instance

/-- Rows selected by the week-summary range filter. -/
def weekRows (db : Store) (todayMid : Int) : Store :=
  db.filter (fun r => decide (inWeekWindow todayMid r.started_at))

/-- Calendar day of a timestamp (SQLite `date(started_at)`), as days since the
epoch: floor division of seconds by 86400. -/
def dayOf (t : Int) : Int := Int.fdiv t 86400

/-- Function `Storage::get_week_summary`: per-calendar-day
`SUM(duration_secs)` over the rows in the week window (`GROUP BY
date(started_at)`); returned as (day, total) pairs, one per distinct day.
The Rust code collects them into a `HashMap`; a key-unique association list
models it. -/
def get_week_summary (db : Store) (todayMid : Int) : List (Int × Int) :=
  let rows := weekRows db todayMid
  ((rows.map (fun r => dayOf r.started_at)).dedup).map
    (fun d => (d, ((rows.filter (fun r => decide (dayOf r.started_at = d))).map
      ActivityRow.duration_secs).sum))

end Storage

/-! ### Tracker control loop (src/main.rs, `start_daemon`)

The loop multiplexes tray commands, the poll tick and Ctrl+C; exactly one
event is handled per iteration. The mutable state it owns is the database,
the `current_session` rowid behind the RwLock, the tray's `is_tracking` and
`is_idle` atomics, and SQLite's next rowid. `now` and the probe results are
step parameters. Read-only effects (tray label refresh, opening the
dashboard, ShowStats) are not modelled: they touch none of this state. -/

/-- Result of `tracker::get_active_window` that the loop consumes (the
`window_id` field is never read by the loop). -/
structure WindowInfo where
  window_class : List Char
  window_title : List Char
deriving DecidableEq, Repr

/-- Mutable state of `start_daemon`. -/
structure DaemonState where
  db : Store
  current_session : Option Nat
  is_tracking : Bool
  is_idle : Bool
  next_rowid : Nat
deriving Repr

/-- Shared session-closing fragment `if let Some(id) = session.take() {
storage.end_activity(id)?; }`. -/
def closeCurrent (s : DaemonState) (now : Int) : DaemonState :=
  match s.current_session with
  | none => s
  | some rid =>
      { s with db := Storage.end_activity s.db rid now, current_session := none }

/-- One tracking tick of `start_daemon`. `idle_secs` is the idle probe's
answer (0 on probe failure), `window` the window probe's answer (`none` for
`Err`). In the idle branch the code closes any open session, stores the idle
flag and `continue`s without querying the window — accordingly this branch
ignores `window` entirely. -/
def stepTick (cfg : Config) (s : DaemonState) (now : Int) (idle_secs : Nat)
    (window : Option WindowInfo) : DaemonState :=
  if s.is_tracking = false then s
  else if cfg.idle_timeout_secs < idle_secs then
    closeCurrent { s with is_idle := true } now
  else
    let s1 := { s with is_idle := false }
    match window with
    | none => s1
    | some w =>
        match cfg.match_window w.window_class w.window_title with
        | some app =>
            let need_new : Bool :=
              match Storage.get_active_session s1.db with
              | some active => decide (active.app_name ≠ app.name)
              | none => true
            if need_new then
              let s2 := closeCurrent s1 now
              { s2 with
                db := Storage.start_activity s2.db s2.next_rowid app.name
                        app.category w.window_title now,
                current_session := some s2.next_rowid,
                next_rowid := s2.next_rowid + 1 }
            else s1
        | none => closeCurrent s1 now

/-- Pause: the tray stores `is_tracking = false` and the loop's Pause arm
closes the open session. -/
def stepPause (s : DaemonState) (now : Int) : DaemonState :=
  closeCurrent { s with is_tracking := false } now

/-- Resume: the tray stores `is_tracking = true`; the loop arm only logs. -/
def stepResume (s : DaemonState) : DaemonState :=
  { s with is_tracking := true }

/-- Quit / Ctrl+C: close the open session and exit the loop (the process
exits, so the in-memory session id is gone with it). -/
def stepQuit (s : DaemonState) (now : Int) : DaemonState :=
  closeCurrent s now

/-- Startup state of `start_daemon`: open the database, run the
`close_open_sessions` recovery sweep, no current session, tracking on
(the tray initialises `is_tracking` to true), idle flag off. `rid` is
whatever rowid SQLite will assign next. -/
def initState (db0 : Store) (now : Int) (rid : Nat) : DaemonState :=
  { db := Storage.close_open_sessions db0 now,
    current_session := none,
    is_tracking := true,
    is_idle := false,
    next_rowid := rid }

/-- One iteration of the `tokio::select!` loop. -/
inductive Step (cfg : Config) : DaemonState → DaemonState → Prop
  | tick (s : DaemonState) (now : Int) (idle_secs : Nat)
      (window : Option WindowInfo) : Step cfg s (stepTick cfg s now idle_secs window)
  | pause (s : DaemonState) (now : Int) : Step cfg s (stepPause s now)
  | resume (s : DaemonState) : Step cfg s (stepResume s)
  | quit (s : DaemonState) (now : Int) : Step cfg s (stepQuit s now)

/-- States the daemon can be in after startup (any prior database contents)
and any sequence of loop iterations. -/
inductive Reachable (cfg : Config) : DaemonState → Prop
  | init (db0 : Store) (now : Int) (rid : Nat) :
      Reachable cfg (initState db0 now rid)
  | step {s t : DaemonState} : Reachable cfg s → Step cfg s t → Reachable cfg t

/-- Synchronisation invariant between the loop's in-memory session id and the
database: no current session means no open row; a current session id means
exactly one open row, carrying that id. -/
def SessionSync (s : DaemonState) : Prop :=
  match s.current_session with
  | none => Storage.openRows s.db = []
  | some rid => ∃ r, Storage.openRows s.db = [r] ∧ r.id = rid

/-- Built-in default configuration (`impl Default for Config` in
src/config.rs): idle timeout 300 s, poll every 5 s, nine tracked apps. -/
def defaultConfig : Config :=
  { idle_timeout_secs := 300,
    poll_interval_secs := 5,
    apps :=
      [ { name := "Brave".toList, match_type := MatchType.windowClass,
          pattern := "brave".toList, category := "Browser".toList },
        { name := "Teams".toList, match_type := MatchType.windowTitle,
          pattern := "Teams".toList, category := "Communication".toList },
        { name := "Ghostty".toList, match_type := MatchType.windowClass,
          pattern := "ghostty".toList, category := "Terminal".toList },
        { name := "Terminus".toList, match_type := MatchType.windowClass,
          pattern := "terminus".toList, category := "Terminal".toList },
        { name := "Claude Code".toList, match_type := MatchType.windowTitle,
          pattern := "Claude".toList, category := "Development".toList },
        { name := "VS Code".toList, match_type := MatchType.windowClass,
          pattern := "code".toList, category := "Development".toList },
        { name := "Obsidian".toList, match_type := MatchType.windowClass,
          pattern := "obsidian".toList, category := "Notes".toList },
        { name := "OnlyOffice".toList, match_type := MatchType.windowClass,
          pattern := "onlyoffice".toList, category := "Office".toList },
        { name := "Dolphin".toList, match_type := MatchType.windowClass,
          pattern := "dolphin".toList, category := "Files".toList } ] }

/-! ### Helper lemmas -/

theorem openRows_nil : Storage.openRows [] = [] := rfl

theorem closeRow_closed (now : Int) (r : ActivityRow) :
    (if r.ended_at.isNone then Storage.endRow now r else r).ended_at.isNone = false := by
  by_cases h : r.ended_at.isNone
  · rw [if_pos h]; rfl
  · rw [if_neg h]; exact Bool.eq_false_iff.mpr h

theorem openRows_close_open_sessions (db : Store) (now : Int) :
    Storage.openRows (Storage.close_open_sessions db now) = [] := by
  unfold Storage.openRows Storage.close_open_sessions
  rw [List.filter_eq_nil_iff]
  intro a ha
  obtain ⟨x, _, rfl⟩ := List.mem_map.mp ha
  exact Bool.eq_false_iff.mp (closeRow_closed now x)

theorem openRows_end_activity (db : Store) (rid : Nat) (now : Int) :
    Storage.openRows (Storage.end_activity db rid now) =
      (Storage.openRows db).filter (fun r => !(decide (r.id = rid))) := by
  induction db with
  | nil => rfl
  | cons r t ih =>
      unfold Storage.openRows Storage.end_activity at ih ⊢
      rw [List.map_cons, List.filter_cons, List.filter_cons]
      by_cases hid : r.id = rid
      · rw [if_pos hid]
        have hcl : (Storage.endRow now r).ended_at.isNone = false := rfl
        rw [hcl]
        simp only [Bool.false_eq_true, if_false]
        by_cases hop : r.ended_at.isNone
        · rw [if_pos hop, List.filter_cons]
          simp only [hid, decide_eq_true_eq]
          rw [if_neg (by simp)]
          exact ih
        · rw [if_neg hop]
          exact ih
      · rw [if_neg hid]
        by_cases hop : r.ended_at.isNone
        · rw [if_pos hop, if_pos hop, List.filter_cons]
          rw [if_pos (by simp [hid]), ih]
        · rw [if_neg hop, if_neg hop]
          exact ih

theorem openRows_start_activity (db : Store) (rowid : Nat)
    (app cat title : List Char) (now : Int) :
    Storage.openRows (Storage.start_activity db rowid app cat title now) =
      Storage.openRows db ++
        [{ id := rowid, app_name := app, category := cat, window_title := title,
           started_at := now, ended_at := none, duration_secs := 0,
           active_secs := 0, passive_secs := 0 }] := by
  simp [Storage.openRows, Storage.start_activity, List.filter_append]

theorem closeCurrent_db_openRows {s : DaemonState} (hs : SessionSync s) (now : Int) :
    Storage.openRows (closeCurrent s now).db = [] ∧
      (closeCurrent s now).current_session = none := by
  unfold closeCurrent
  cases hc : s.current_session with
  | none =>
      unfold SessionSync at hs
      rw [hc] at hs
      exact ⟨hs, hc⟩
  | some rid =>
      unfold SessionSync at hs
      rw [hc] at hs
      obtain ⟨r, hrow, hrid⟩ := hs
      refine ⟨?_, rfl⟩
      rw [openRows_end_activity, hrow]
      simp [hrid]

theorem closeCurrent_sync {s : DaemonState} (hs : SessionSync s) (now : Int) :
    SessionSync (closeCurrent s now) := by
  obtain ⟨h1, h2⟩ := closeCurrent_db_openRows hs now
  unfold SessionSync
  rw [h2]
  exact h1

theorem sessionSync_fields (db : Store) (cur : Option Nat) (tr id1 : Bool)
    (rid : Nat) (tr2 id2 : Bool) (rid2 : Nat) :
    SessionSync { db := db, current_session := cur, is_tracking := tr,
                  is_idle := id1, next_rowid := rid } ↔
    SessionSync { db := db, current_session := cur, is_tracking := tr2,
                  is_idle := id2, next_rowid := rid2 } := Iff.rfl

theorem sessionSync_init (db0 : Store) (now : Int) (rid : Nat) :
    SessionSync (initState db0 now rid) := by
  unfold SessionSync initState
  exact openRows_close_open_sessions db0 now

theorem sessionSync_stepTick (cfg : Config) {s : DaemonState} (hs : SessionSync s)
    (now : Int) (idle_secs : Nat) (window : Option WindowInfo) :
    SessionSync (stepTick cfg s now idle_secs window) := by
  unfold stepTick
  by_cases htr : s.is_tracking = false
  · rw [if_pos htr]; exact hs
  · rw [if_neg htr]
    by_cases hidle : cfg.idle_timeout_secs < idle_secs
    · rw [if_pos hidle]
      exact closeCurrent_sync (s := { s with is_idle := true }) hs now
    · rw [if_neg hidle]
      cases window with
      | none => exact hs
      | some w =>
          simp only
          cases cfg.match_window w.window_class w.window_title with
          | none => exact closeCurrent_sync (s := { s with is_idle := false }) hs now
          | some app =>
              simp only
              by_cases hnew : (match Storage.get_active_session s.db with
                  | some active => decide (active.app_name ≠ app.name)
                  | none => true) = true
              · rw [if_pos hnew]
                have h2 := closeCurrent_db_openRows
                  (s := { s with is_idle := false }) hs now
                unfold SessionSync
                simp only
                rw [openRows_start_activity, h2.1]
                exact ⟨_, rfl, rfl⟩
              · rw [if_neg hnew]
                exact hs

theorem sessionSync_step (cfg : Config) {s t : DaemonState} (hs : SessionSync s)
    (hstep : Step cfg s t) : SessionSync t := by
  cases hstep with
  | tick now idle_secs window => exact sessionSync_stepTick cfg hs now idle_secs window
  | pause now => exact closeCurrent_sync (s := { s with is_tracking := false }) hs now
  | resume => exact hs
  | quit now => exact closeCurrent_sync hs now

theorem sessionSync_reachable (cfg : Config) {s : DaemonState}
    (h : Reachable cfg s) : SessionSync s := by
  induction h with
  | init db0 now rid => exact sessionSync_init db0 now rid
  | step _ hstep ih => exact sessionSync_step cfg ih hstep

theorem ruleMatches_iff (wc wt : List Char) (app : TrackedApp) :
    ruleMatches (lowerStr wc) (lowerStr wt) app = true ↔ specMatches wc wt app := by
  unfold ruleMatches specMatches applicableField containsSub
  cases app.match_type <;> simp

theorem find?_first {α : Type} (p : α → Bool) :
    ∀ (l : List α) (a : α), l.find? p = some a →
      ∃ pre post, l = pre ++ a :: post ∧ (∀ b ∈ pre, ¬ p b = true) ∧ p a = true := by
  intro l
  induction l with
  | nil => intro a h; cases h
  | cons x xs ih =>
      intro a h
      by_cases hx : p x
      · rw [List.find?_cons_of_pos _ hx] at h
        obtain rfl : x = a := Option.some.inj h
        exact ⟨[], xs, rfl, by simp, hx⟩
      · rw [List.find?_cons_of_neg _ (by simpa using hx)] at h
        obtain ⟨pre, post, rfl, hpre, hpa⟩ := ih a h
        refine ⟨x :: pre, post, rfl, ?_, hpa⟩
        intro b hb
        rcases List.mem_cons.mp hb with rfl | hb2
        · exact hx
        · exact hpre b hb2

/-! ### Claim theorems -/

/-- C1: at every reachable state of the tracker's control loop (after the
startup `close_open_sessions` recovery sweep), the activity store contains at
most one row with `ended_at = NULL`; every loop operation (tracking tick with
its open/close logic, idle close, pause, resume, quit) preserves this. -/
theorem tracker_at_most_one_open_session (cfg : Config) (s : DaemonState)
    (h : Reachable cfg s) : (Storage.openRows s.db).length ≤ 1 := by
  have hs := sessionSync_reachable cfg h
  unfold SessionSync at hs
  cases hc : s.current_session with
  | none => rw [hc] at hs; rw [hs]; decide
  | some rid =>
      rw [hc] at hs
      obtain ⟨r, hr, _⟩ := hs
      rw [hr]
      exact Nat.le_refl 1

/-- Witness for C1: the state after startup on an empty store followed by one
tick that matches the Brave rule and opens a session has at most one open row. -/
theorem tracker_at_most_one_open_session_witness :
    (Storage.openRows (stepTick defaultConfig (initState [] 0 1) 5 0
      (some { window_class := "brave-browser".toList,
              window_title := "Example — Brave".toList })).db).length ≤ 1 :=
  tracker_at_most_one_open_session defaultConfig _
    (Reachable.step (Reachable.init [] 0 1) (Step.tick _ 5 0 _))

/-- C2: for every window snapshot and rule list, `match_window` returns the
first rule (in list order) whose pattern is a case-insensitive substring of
the applicable field — `window_class` for WindowClass and Process rules,
`window_title` for WindowTitle rules — and returns none iff no rule's pattern
is such a substring. -/
theorem match_window_first_match (cfg : Config) (wc wt : List Char) :
    (cfg.match_window wc wt = none ↔ ∀ app ∈ cfg.apps, ¬ specMatches wc wt app) ∧
    ∀ app, cfg.match_window wc wt = some app →
      specMatches wc wt app ∧
        ∃ pre post, cfg.apps = pre ++ app :: post ∧
          ∀ b ∈ pre, ¬ specMatches wc wt b := by
  constructor
  · unfold Config.match_window
    rw [List.find?_eq_none]
    constructor
    · intro h app hmem hspec
      exact h app hmem ((ruleMatches_iff wc wt app).mpr hspec)
    · intro h app hmem hrule
      exact h app hmem ((ruleMatches_iff wc wt app).mp hrule)
  · intro app h
    unfold Config.match_window at h
    obtain ⟨pre, post, happs, hpre, hpa⟩ := find?_first _ _ _ h
    refine ⟨(ruleMatches_iff wc wt app).mp hpa, pre, post, happs, ?_⟩
    intro b hb hspec
    exact hpre b hb ((ruleMatches_iff wc wt b).mpr hspec)

/-- Witness for C2: against the built-in default rules, the snapshot
`{windowClass: "brave-browser", windowTitle: "Example — Brave"}` resolves to
the Brave rule, which is the first matching rule (here: the head of the list). -/
theorem match_window_first_match_witness :
    specMatches ("brave-browser".toList) ("Example — Brave".toList)
        { name := "Brave".toList, match_type := MatchType.windowClass,
          pattern := "brave".toList, category := "Browser".toList } ∧
      ∃ pre post,
        defaultConfig.apps = pre ++
            { name := "Brave".toList, match_type := MatchType.windowClass,
              pattern := "brave".toList, category := "Browser".toList } :: post ∧
          ∀ b ∈ pre,
            ¬ specMatches ("brave-browser".toList) ("Example — Brave".toList) b :=
  (match_window_first_match defaultConfig ("brave-browser".toList)
    ("Example — Brave".toList)).2 _ (by decide)

/-- C3 (evaluation at the failing input): `end_activity` computes
`duration_secs` as the raw integer-second delta `now - started_at` with no
clamp, so when the clock has moved backward (session started at second 100,
ended at second 40) the stored duration is -60, which is negative — the code
does not clamp to zero as the spec requires. -/
theorem end_activity_clock_backward_negative :
    (Storage.end_activity
        [{ id := 1, app_name := "Brave".toList, category := "Browser".toList,
           window_title := "t".toList, started_at := 100, ended_at := none,
           duration_secs := 0, active_secs := 0, passive_secs := 0 }]
        1 40).map ActivityRow.duration_secs = [-60] ∧ (-60 : Int) < 0 := by
  exact ⟨by decide, by decide⟩

/-- C4: after `close_open_sessions`, no row has `ended_at = NULL`; the table
keeps the same number of rows; every previously open row (at its position)
gains `ended_at = now` and `duration_secs = now - started_at`, and every row
that was already closed is unchanged. -/
theorem close_open_sessions_spec (db : Store) (now : Int) :
    Storage.openRows (Storage.close_open_sessions db now) = [] ∧
    (Storage.close_open_sessions db now).length = db.length ∧
    ∀ (i : Nat) (r : ActivityRow), db[i]? = some r →
      (r.ended_at = none →
        (Storage.close_open_sessions db now)[i]? =
          some { r with ended_at := some now,
                        duration_secs := now - r.started_at }) ∧
      (r.ended_at ≠ none → (Storage.close_open_sessions db now)[i]? = some r) := by
  refine ⟨openRows_close_open_sessions db now, List.length_map db _, ?_⟩
  intro i r hir
  unfold Storage.close_open_sessions
  rw [List.getElem?_map _ db i, hir]
  constructor
  · intro hnone
    have hb : r.ended_at.isNone = true := Option.isNone_iff_eq_none.mpr hnone
    simp only [Option.map_some', hb, if_true]
    rfl
  · intro hsome
    have hb : r.ended_at.isNone = false := by
      cases he : r.ended_at with
      | none => exact absurd he hsome
      | some v => rfl
    simp only [Option.map_some', hb, Bool.false_eq_true, if_false]

/-- Witness for C4: closing a one-row table whose single row is open stamps
that row with `ended_at = 80` and `duration_secs = 30`. -/
theorem close_open_sessions_spec_witness :
    (Storage.close_open_sessions
        [{ id := 7, app_name := "VS Code".toList,
           category := "Development".toList, window_title := "main.rs".toList,
           started_at := 50, ended_at := none, duration_secs := 0,
           active_secs := 0, passive_secs := 0 }] 80)[0]? =
      some { id := 7, app_name := "VS Code".toList,
             category := "Development".toList, window_title := "main.rs".toList,
             started_at := 50, ended_at := some 80, duration_secs := 30,
             active_secs := 0, passive_secs := 0 } :=
  ((close_open_sessions_spec
      [{ id := 7, app_name := "VS Code".toList,
         category := "Development".toList, window_title := "main.rs".toList,
         started_at := 50, ended_at := none, duration_secs := 0,
         active_secs := 0, passive_secs := 0 }] 80).2.2 0 _ rfl).1 rfl

theorem count_filter_eq {α : Type} [DecidableEq α] (p : α → Bool) (l : List α)
    (a : α) : (l.filter p).count a = if p a then l.count a else 0 := by
  induction l with
  | nil => simp
  | cons x xs ih =>
      rw [List.filter_cons]
      by_cases hxa : x = a
      · subst hxa
        by_cases hpx : p x
        · rw [if_pos hpx, List.count_cons_self, List.count_cons_self, ih,
            if_pos hpx, if_pos hpx]
        · rw [if_neg hpx, ih, if_neg hpx, if_neg hpx]
      · have hax : a ≠ x := fun h => hxa h.symm
        by_cases hpx : p x
        · rw [if_pos hpx, List.count_cons_of_ne hax, ih,
            List.count_cons_of_ne hax]
        · rw [if_neg hpx, ih, List.count_cons_of_ne hax]

/-- C5: `reset_today` deletes exactly the rows whose `started_at` falls in
`[local midnight, local midnight + 24h)` — their multiplicity drops to zero —
and leaves every other row with its multiplicity unchanged, preserving the
relative order of the survivors. -/
theorem reset_today_spec (db : Store) (midnight : Int) :
    (∀ r : ActivityRow, (Storage.reset_today db midnight).count r =
        if Storage.inDayWindow midnight r.started_at then 0 else db.count r) ∧
    (Storage.reset_today db midnight).Sublist db := by
  constructor
  · intro r
    unfold Storage.reset_today
    rw [count_filter_eq]
    by_cases h : Storage.inDayWindow midnight r.started_at
    · simp [h]
    · simp [h]
  · exact List.filter_sublist db

/-- Witness for C5: a row started at second 100 is inside the day window of
midnight 0 and is deleted, while a row started at second -5 survives with its
multiplicity intact. -/
theorem reset_today_spec_witness :
    (Storage.reset_today
        [{ id := 1, app_name := "Brave".toList, category := "Browser".toList,
           window_title := "T".toList, started_at := 100, ended_at := some 110,
           duration_secs := 10, active_secs := 0, passive_secs := 0 },
         { id := 2, app_name := "Brave".toList, category := "Browser".toList,
           window_title := "U".toList, started_at := -5, ended_at := some 6,
           duration_secs := 11, active_secs := 0, passive_secs := 0 }]
        0).count
      { id := 1, app_name := "Brave".toList, category := "Browser".toList,
        window_title := "T".toList, started_at := 100, ended_at := some 110,
        duration_secs := 10, active_secs := 0, passive_secs := 0 } = 0 :=
  (reset_today_spec
    [{ id := 1, app_name := "Brave".toList, category := "Browser".toList,
       window_title := "T".toList, started_at := 100, ended_at := some 110,
       duration_secs := 10, active_secs := 0, passive_secs := 0 },
     { id := 2, app_name := "Brave".toList, category := "Browser".toList,
       window_title := "U".toList, started_at := -5, ended_at := some 6,
       duration_secs := 11, active_secs := 0, passive_secs := 0 }] 0).1
    { id := 1, app_name := "Brave".toList, category := "Browser".toList,
      window_title := "T".toList, started_at := 100, ended_at := some 110,
      duration_secs := 10, active_secs := 0, passive_secs := 0 }

/-- C7 counterexample: at `maxLen = 0` with the two-character input "ab" the
result is the one-character ellipsis string, which is longer than `maxLen` —
so "the result is never longer than maxLen characters" fails as stated. -/
theorem truncate_maxlen_zero_counterexample :
    ¬ ((truncate ("ab".toList) 0).length ≤ 0) := by decide

/-- C7 (amended): if `s` has at most `maxLen` characters, `truncate` returns
it unchanged; otherwise it returns the first `maxLen - 1` characters followed
by a single ellipsis glyph; and for every `maxLen ≥ 1` the result is never
longer than `maxLen` characters (character count, not bytes). -/
theorem truncate_spec (s : List Char) (max_len : Nat) :
    (s.length ≤ max_len → truncate s max_len = s) ∧
    (max_len < s.length → truncate s max_len = s.take (max_len - 1) ++ ['…']) ∧
    (1 ≤ max_len → (truncate s max_len).length ≤ max_len) := by
  refine ⟨?_, ?_, ?_⟩
  · intro h; unfold truncate; rw [if_pos h]
  · intro h; unfold truncate; rw [if_neg (by omega)]
  · intro h1
    unfold truncate
    by_cases h : s.length ≤ max_len
    · rw [if_pos h]; exact h
    · rw [if_neg h, List.length_append, List.length_take]
      simp only [List.length_singleton]
      omega

/-- Witness for C7: a five-character string truncated to 3 keeps 2 characters
plus the ellipsis, and the bound holds at `maxLen = 3`. -/
theorem truncate_spec_witness :
    truncate ("hello".toList) 3 = ("hello".toList).take 2 ++ ['…'] ∧
    (truncate ("hello".toList) 3).length ≤ 3 :=
  ⟨(truncate_spec ("hello".toList) 3).2.1 (by decide),
   (truncate_spec ("hello".toList) 3).2.2 (by decide)⟩

/-- C10: `update_activity_time` leaves the table size unchanged; a row with a
different id is untouched; the targeted row gains `active_delta` on
`active_secs`, `passive_delta` on `passive_secs` and their sum on
`duration_secs` (all other columns unchanged, as the record update shows), so
a row whose counters satisfy `active_secs + passive_secs = duration_secs`
still satisfies it afterwards. -/
theorem update_activity_time_spec (db : Store) (rid : Nat) (a p : Int) :
    (Storage.update_activity_time db rid a p).length = db.length ∧
    ∀ (i : Nat) (r : ActivityRow), db[i]? = some r →
      (r.id ≠ rid → (Storage.update_activity_time db rid a p)[i]? = some r) ∧
      (r.id = rid →
        (Storage.update_activity_time db rid a p)[i]? =
          some { r with active_secs := r.active_secs + a,
                        passive_secs := r.passive_secs + p,
                        duration_secs := r.duration_secs + a + p } ∧
        (r.active_secs + r.passive_secs = r.duration_secs →
          (r.active_secs + a) + (r.passive_secs + p) =
            r.duration_secs + a + p)) := by
  refine ⟨List.length_map db _, ?_⟩
  intro i r hir
  unfold Storage.update_activity_time
  rw [List.getElem?_map _ db i, hir]
  constructor
  · intro hne
    simp only [Option.map_some', if_neg hne]
  · intro heq
    refine ⟨by simp only [Option.map_some', if_pos heq], ?_⟩
    intro hrec
    omega

/-- Witness for C10: adding deltas (4 active, 2 passive) to the matching row
updates all three counters and preserves the reconciliation equation. -/
theorem update_activity_time_spec_witness :
    (Storage.update_activity_time
        [{ id := 3, app_name := "Teams".toList,
           category := "Communication".toList, window_title := "Chat".toList,
           started_at := 10, ended_at := none, duration_secs := 6,
           active_secs := 5, passive_secs := 1 }] 3 4 2)[0]? =
      some { id := 3, app_name := "Teams".toList,
             category := "Communication".toList, window_title := "Chat".toList,
             started_at := 10, ended_at := none, duration_secs := 12,
             active_secs := 9, passive_secs := 3 } ∧
    ((5 : Int) + 4) + ((1 : Int) + 2) = (6 : Int) + 4 + 2 :=
  ((update_activity_time_spec
      [{ id := 3, app_name := "Teams".toList,
         category := "Communication".toList, window_title := "Chat".toList,
         started_at := 10, ended_at := none, duration_secs := 6,
         active_secs := 5, passive_secs := 1 }] 3 4 2).2 0 _ rfl).2 rfl
    |>.imp id (fun h => h rfl)

/-- C8: every group returned by the "detailed" aggregation over today's
local-day window carries a total of at least 5 seconds, and that total is
exactly the summed `duration_secs` of today's rows with the group's
`(app_name, window_title)` key — so no group summing to under 5 seconds is
ever returned. -/
theorem get_today_detailed_noise_floor (db : Store) (midnight : Int) :
    ∀ g ∈ Storage.get_today_detailed db midnight,
      5 ≤ g.2 ∧ g.2 = Storage.groupTotal (Storage.todayRows db midnight) g.1 := by
  intro g hg
  unfold Storage.get_today_detailed at hg
  obtain ⟨hmem, h5⟩ := List.mem_filter.mp hg
  refine ⟨by simpa using h5, ?_⟩
  obtain ⟨k, _, rfl⟩ := List.mem_map.mp hmem
  rfl

/-- Witness for C8: a single 10-second row today yields the one group
`(Brave, T)` with total 10, which satisfies both conjuncts. -/
theorem get_today_detailed_noise_floor_witness :
    5 ≤ (10 : Int) ∧
      (10 : Int) = Storage.groupTotal
        (Storage.todayRows
          [{ id := 1, app_name := "Brave".toList, category := "Browser".toList,
             window_title := "T".toList, started_at := 100,
             ended_at := some 110, duration_secs := 10, active_secs := 0,
             passive_secs := 0 }] 0)
        ("Brave".toList, "T".toList) :=
  get_today_detailed_noise_floor
    [{ id := 1, app_name := "Brave".toList, category := "Browser".toList,
       window_title := "T".toList, started_at := 100, ended_at := some 110,
       duration_secs := 10, active_secs := 0, passive_secs := 0 }] 0
    (("Brave".toList, "T".toList), 10) (by decide)

/-- C9: the week summary has one bucket per distinct calendar day; each
bucket's total sums the `duration_secs` of exactly the rows that fall in the
week window and on that calendar day (so no row outside the window
contributes anywhere, and an in-window row contributes only to its own day);
and every in-window row's calendar day does get a bucket. -/
theorem get_week_summary_spec (db : Store) (todayMid : Int) :
    ((Storage.get_week_summary db todayMid).map Prod.fst).Nodup ∧
    (∀ g ∈ Storage.get_week_summary db todayMid,
      g.2 = ((db.filter (fun r =>
          decide (Storage.inWeekWindow todayMid r.started_at ∧
            Storage.dayOf r.started_at = g.1))).map
        ActivityRow.duration_secs).sum) ∧
    ∀ r ∈ db, Storage.inWeekWindow todayMid r.started_at →
      ∃ t, (Storage.dayOf r.started_at, t) ∈
        Storage.get_week_summary db todayMid := by
  refine ⟨?_, ?_, ?_⟩
  · unfold Storage.get_week_summary
    rw [List.map_map]
    have hfst : (Prod.fst ∘ fun d => (d,
        ((Storage.weekRows db todayMid).filter (fun r =>
          decide (Storage.dayOf r.started_at = d))).map
            ActivityRow.duration_secs |>.sum)) = id := rfl
    rw [hfst, List.map_id]
    exact List.nodup_dedup _
  · intro g hg
    unfold Storage.get_week_summary at hg
    obtain ⟨d, _, rfl⟩ := List.mem_map.mp hg
    simp only
    unfold Storage.weekRows
    rw [List.filter_filter]
    have hpred : (fun a : ActivityRow => decide (Storage.dayOf a.started_at = d) &&
        decide (Storage.inWeekWindow todayMid a.started_at)) =
        (fun r : ActivityRow => decide (Storage.inWeekWindow todayMid r.started_at ∧
          Storage.dayOf r.started_at = d)) := by
      funext r
      simp [Bool.and_comm]
    rw [hpred]
  · intro r hr hw
    have hrw : r ∈ Storage.weekRows db todayMid :=
      List.mem_filter.mpr ⟨hr, by simpa using hw⟩
    have hd : Storage.dayOf r.started_at ∈
        ((Storage.weekRows db todayMid).map
          (fun r => Storage.dayOf r.started_at)).dedup :=
      List.mem_dedup.mpr (List.mem_map_of_mem _ hrw)
    exact ⟨_, List.mem_map_of_mem _ hd⟩

/-- Witness for C9: a row started at second 100 lies in the week window of
`todayMid = 0` and its calendar day (day 0) receives a bucket. -/
theorem get_week_summary_spec_witness :
    ∃ t, (Storage.dayOf 100, t) ∈
      Storage.get_week_summary
        [{ id := 1, app_name := "Brave".toList, category := "Browser".toList,
           window_title := "T".toList, started_at := 100, ended_at := some 110,
           duration_secs := 10, active_secs := 0, passive_secs := 0 }] 0 :=
  (get_week_summary_spec
    [{ id := 1, app_name := "Brave".toList, category := "Browser".toList,
       window_title := "T".toList, started_at := 100, ended_at := some 110,
       duration_secs := 10, active_secs := 0, passive_secs := 0 }] 0).2.2
    { id := 1, app_name := "Brave".toList, category := "Browser".toList,
      window_title := "T".toList, started_at := 100, ended_at := some 110,
      duration_secs := 10, active_secs := 0, passive_secs := 0 }
    (by decide) (by constructor <;> decide)

theorem closeCurrent_is_idle (s : DaemonState) (now : Int) :
    (closeCurrent s now).is_idle = s.is_idle := by
  unfold closeCurrent
  cases s.current_session <;> rfl

/-- C6: on a tick where tracking is not paused and the idle probe reports
`idle_secs > idle_timeout_secs`, the resulting state does not depend on the
window probe's answer (the snapshot is not queried, so no new session can
open), the idle flag is set, no open row remains, and any open session row is
closed with `ended_at = now`. The `SessionSync` hypothesis is the loop
invariant established for every reachable state. -/
theorem idle_tick_closes_and_skips_window (cfg : Config) (s : DaemonState)
    (now : Int) (idle_secs : Nat) (w w2 : Option WindowInfo)
    (htr : s.is_tracking = true) (hidle : cfg.idle_timeout_secs < idle_secs)
    (hs : SessionSync s) :
    stepTick cfg s now idle_secs w = stepTick cfg s now idle_secs w2 ∧
    (stepTick cfg s now idle_secs w).is_idle = true ∧
    Storage.openRows (stepTick cfg s now idle_secs w).db = [] ∧
    ∀ r ∈ s.db, r.ended_at = none →
      { r with ended_at := some now, duration_secs := now - r.started_at } ∈
        (stepTick cfg s now idle_secs w).db := by
  have hstep : ∀ win : Option WindowInfo,
      stepTick cfg s now idle_secs win =
        closeCurrent { s with is_idle := true } now := by
    intro win
    unfold stepTick
    rw [if_neg (by simp [htr]), if_pos hidle]
  refine ⟨(hstep w).trans (hstep w2).symm, ?_, ?_, ?_⟩
  · rw [hstep w, closeCurrent_is_idle]
  · rw [hstep w]
    exact (closeCurrent_db_openRows (s := { s with is_idle := true }) hs now).1
  · intro r hr hnone
    rw [hstep w]
    have hopen : r ∈ Storage.openRows s.db :=
      List.mem_filter.mpr ⟨hr, by simp [hnone]⟩
    unfold SessionSync at hs
    cases hc : s.current_session with
    | none =>
        rw [hc] at hs
        rw [hs] at hopen
        cases hopen
    | some rid =>
        rw [hc] at hs
        obtain ⟨r0, hrow, hrid⟩ := hs
        rw [hrow] at hopen
        obtain rfl : r = r0 := by
          rcases List.mem_singleton.mp hopen with h
          exact h
        unfold closeCurrent
        simp only [hc]
        unfold Storage.end_activity
        refine List.mem_map.mpr ⟨r, hr, ?_⟩
        simp [Storage.endRow, hrid]

/-- Witness for C6 (the spec's scenario): idle probe 301 with timeout 300 and
a session open — the tick ignores the window probe, sets the idle flag, and
leaves no open row. -/
theorem idle_tick_closes_and_skips_window_witness :
    stepTick defaultConfig
        { db := [{ id := 5, app_name := "Brave".toList,
                   category := "Browser".toList, window_title := "T".toList,
                   started_at := 100, ended_at := none, duration_secs := 0,
                   active_secs := 0, passive_secs := 0 }],
          current_session := some 5, is_tracking := true, is_idle := false,
          next_rowid := 6 } 200 301
        (some { window_class := "brave-browser".toList,
                window_title := "T".toList }) =
      stepTick defaultConfig
        { db := [{ id := 5, app_name := "Brave".toList,
                   category := "Browser".toList, window_title := "T".toList,
                   started_at := 100, ended_at := none, duration_secs := 0,
                   active_secs := 0, passive_secs := 0 }],
          current_session := some 5, is_tracking := true, is_idle := false,
          next_rowid := 6 } 200 301 none ∧
    (stepTick defaultConfig
        { db := [{ id := 5, app_name := "Brave".toList,
                   category := "Browser".toList, window_title := "T".toList,
                   started_at := 100, ended_at := none, duration_secs := 0,
                   active_secs := 0, passive_secs := 0 }],
          current_session := some 5, is_tracking := true, is_idle := false,
          next_rowid := 6 } 200 301
        (some { window_class := "brave-browser".toList,
                window_title := "T".toList })).is_idle = true ∧
    Storage.openRows (stepTick defaultConfig
        { db := [{ id := 5, app_name := "Brave".toList,
                   category := "Browser".toList, window_title := "T".toList,
                   started_at := 100, ended_at := none, duration_secs := 0,
                   active_secs := 0, passive_secs := 0 }],
          current_session := some 5, is_tracking := true, is_idle := false,
          next_rowid := 6 } 200 301
        (some { window_class := "brave-browser".toList,
                window_title := "T".toList })).db = [] := by
  have h := idle_tick_closes_and_skips_window defaultConfig
    { db := [{ id := 5, app_name := "Brave".toList,
               category := "Browser".toList, window_title := "T".toList,
               started_at := 100, ended_at := none, duration_secs := 0,
               active_secs := 0, passive_secs := 0 }],
      current_session := some 5, is_tracking := true, is_idle := false,
      next_rowid := 6 } 200 301
    (some { window_class := "brave-browser".toList,
            window_title := "T".toList }) none rfl (by decide)
    ⟨{ id := 5, app_name := "Brave".toList, category := "Browser".toList,
       window_title := "T".toList, started_at := 100, ended_at := none,
       duration_secs := 0, active_secs := 0, passive_secs := 0 }, rfl, rfl⟩
  exact ⟨h.1, h.2.1, h.2.2.1⟩

end FlowMode
